import Mathlib

/-
Verification development for the GEM catalogue toolkit (eqcat): a shallow
embedding of the ISF catalogue data model (eqcat/isf_catalogue.py) and of the
ISF reader state machine (eqcat/parsers/isf_catalogue_reader.py), together
with theorems settling the specified behavioural claims.

Modelling conventions:
  - Python floats are modelled as exact rationals (ℚ).
  - Fallible Python code (raised exceptions, references to unbound local
    variables) is modelled with Except String; the error string records the
    Python exception class.
  - Input files are modelled as the list of their lines with the trailing
    newline already removed, so the sources occurrences of row.rstrip of a
    newline are identities.
  - The helper module eqcat/parsers/base.py (field decoders _to_int, _to_str,
    _to_float and the BaseCatalogueDatabaseReader constructor) is not among
    the available sources; those definitions are modelled from the spec and
    are marked as such below.
-/

/-! ## Python string primitives -/

/-- Is `pat` a leading segment of `cs`? (helper for substring containment). -/
def isPrefixList : List Char → List Char → Bool
  | [], _ => true
  | _ :: _, [] => false
  | a :: as, b :: bs => a = b && isPrefixList as bs

/-- Auxiliary scan for substring containment. -/
def containsAux (cs pat : List Char) : Bool :=
  isPrefixList pat cs ||
    match cs with
    | [] => false
    | _ :: rest => containsAux rest pat

/-- Python `pat in s` substring containment. -/
def strContains (s pat : String) : Bool :=
  containsAux s.toList pat.toList

/-- Python slice `s[a:b]` (clamping, character positions). -/
def pySlice (s : String) (a b : Nat) : String :=
  ((s.toList.drop a).take (b - a)).asString

/-- Python slice `s[a:]`. -/
def pySliceFrom (s : String) (a : Nat) : String :=
  (s.toList.drop a).asString

/-- Strip characters satisfying `p` from both ends of a string. -/
def pyStripWith (p : Char → Bool) (s : String) : String :=
  (((s.toList.dropWhile p).reverse.dropWhile p).reverse).asString

/-- Python `s.strip()` (whitespace from both ends). -/
def pyStripWs (s : String) : String := pyStripWith Char.isWhitespace s

/-- Python `s.strip(" ")` (spaces only, from both ends). -/
def pyStripSpaces (s : String) : String := pyStripWith (fun c => c = ' ') s

/-- Python `s.lower()` (ASCII lowering suffices for the agency keywords). -/
def pyLower (s : String) : String := (s.toList.map Char.toLower).asString

/-- Accumulator-style splitting of a character list into whitespace-free words. -/
def wordsAux : List Char → List Char → List (List Char)
  | [], acc => if acc.isEmpty then [] else [acc.reverse]
  | c :: rest, acc =>
    if c.isWhitespace then
      if acc.isEmpty then wordsAux rest [] else acc.reverse :: wordsAux rest []
    else wordsAux rest (c :: acc)

/-- Python `s.split()` with no argument: split on whitespace runs, no empties. -/
def pySplitWs (s : String) : List String :=
  (wordsAux s.toList []).map List.asString

/-- Split a character list on a single separator character (keeps empties). -/
def splitOnChar (sep : Char) : List Char → List (List Char)
  | [] => [[]]
  | c :: rest =>
    let r := splitOnChar sep rest
    if c = sep then [] :: r
    else
      match r with
      | [] => [[c]]
      | g :: gs => (c :: g) :: gs

/-- Python `s.split(sep)` for a one-character separator. -/
def pySplitOnChar (s : String) (sep : Char) : List String :=
  (splitOnChar sep s.toList).map List.asString

/-! ## Numeric parsing (Python int()/float() over exact rationals) -/

/-- Decimal digits to a natural number. -/
def digitsToNat (cs : List Char) : Nat :=
  cs.foldl (fun acc c => acc * 10 + (c.toNat - '0'.toNat)) 0

/-- Unsigned decimal forms accepted by float(): digits, digits.digits,
digits., .digits (exponent forms do not occur in ISF fixed-width columns). -/
def parseUnsignedQ (cs : List Char) : Option ℚ :=
  let intPart := cs.takeWhile Char.isDigit
  let rest := cs.dropWhile Char.isDigit
  match rest with
  | [] => if intPart.isEmpty then none else some ((digitsToNat intPart : ℚ))
  | '.' :: frac =>
    if frac.all Char.isDigit && !(intPart.isEmpty && frac.isEmpty) then
      some ((digitsToNat intPart : ℚ) + (digitsToNat frac : ℚ) / ((10 : ℚ) ^ frac.length))
    else none
  | _ => none

/-- Signed decimal parsing after whitespace stripping. -/
def parseSignedQ (s : String) : Option ℚ :=
  match s.toList with
  | '-' :: rest => (parseUnsignedQ rest).map (fun q => -q)
  | '+' :: rest => parseUnsignedQ rest
  | cs => parseUnsignedQ cs

/-- Unsigned integer digits to Int. -/
def parseUnsignedZ (cs : List Char) : Option Int :=
  if cs.isEmpty || !(cs.all Char.isDigit) then none
  else some ((digitsToNat cs : Int))

/-- Signed integer parsing after whitespace stripping. -/
def parseSignedZ (s : String) : Option Int :=
  match s.toList with
  | '-' :: rest => (parseUnsignedZ rest).map (fun z => -z)
  | '+' :: rest => parseUnsignedZ rest
  | cs => parseUnsignedZ cs

/-- `math.fabs` over exact rationals. -/
def fabs (q : ℚ) : ℚ := if q < 0 then -q else q

/-- Python builtin `float(s)`: raises ValueError on malformed text. -/
def pyFloat (s : String) : Except String ℚ :=
  match parseSignedQ (pyStripWs s) with
  | some q => Except.ok q
  | none => Except.error "ValueError: could not convert string to float"

/-- Python builtin `int(s)`: raises ValueError on malformed text. -/
def pyInt (s : String) : Except String Int :=
  match parseSignedZ (pyStripWs s) with
  | some z => Except.ok z
  | none => Except.error "ValueError: invalid literal for int"

/-! ## Field decoders.

Modelled from the spec: eqcat/parsers/base.py is not among the available
sources.  Section 4.1 of the spec requires each decoder to trim whitespace and
return a typed value, or a missing sentinel (never throw) when the substring
is blank or non-numeric.  Missing is Option.none for numeric decoders and the
empty string for the string decoder. -/

/-- Modelled from the spec: base.py `_to_float` — lenient float decoder. -/
def _to_float (s : String) : Option ℚ := parseSignedQ (pyStripWs s)

/-- Modelled from the spec: base.py `_to_int` — lenient int decoder. -/
def _to_int (s : String) : Option Int := parseSignedZ (pyStripWs s)

/-- Modelled from the spec: base.py `_to_str` — trimming string decoder
(blank fields give the empty string as the missing sentinel). -/
def _to_str (s : String) : String := pyStripWs s

/-! ## Data model (eqcat/isf_catalogue.py) -/

/-- `Magnitude` (isf_catalogue.py): one reported magnitude.  The derived
display field `magnitude_id` is not modelled; its construction in `__init__`
is what makes a missing value fatal, see `mkMagnitude`. -/
structure Magnitude where
  event_id : String
  origin_id : String
  value : ℚ
  author : String
  scale : String
  sigma : Option ℚ
  stations : Option Int
  deriving DecidableEq, Repr

/-- `Magnitude.__init__`: the scale defaults to "UK" when absent or empty
(Python truthiness of the string); formatting the composite `magnitude_id`
with a missing (None) value raises in CPython, hence the error branch. -/
def mkMagnitude (event_id origin_id : String) (value : Option ℚ) (author : String)
    (scale : Option String) (sigma : Option ℚ) (stations : Option Int) :
    Except String Magnitude :=
  match value with
  | none => Except.error "ValueError: cannot format missing magnitude value"
  | some v =>
    Except.ok
      { event_id := event_id
        origin_id := origin_id
        value := v
        author := author
        scale := match scale with
          | some s => if s = "" then "UK" else s
          | none => "UK"
        sigma := sigma
        stations := stations }

/-- `Magnitude.compare_magnitude`: magnitudes agreeing on (origin id, author,
scale) must agree on value within the hard-coded 0.001 tolerance — a larger
difference raises ValueError; differing metadata compares as distinct.  (The
`tol` parameter of the source is unused by its body and is omitted.) -/
def Magnitude.compare_magnitude (self magnitude : Magnitude) : Except String Bool :=
  if magnitude.origin_id = self.origin_id ∧ magnitude.author = self.author ∧
      magnitude.scale = self.scale then
    if mkRat 1 1000 < fabs (magnitude.value - self.value) then
      Except.error "ValueError: Two magnitudes with same metadata contain different values!"
    else
      Except.ok true
  else
    Except.ok false

/-- `Location` (isf_catalogue.py). -/
structure Location where
  identifier : String
  longitude : ℚ
  latitude : ℚ
  depth : Option ℚ
  depthSolution : String
  semimajor90 : Option ℚ
  semiminor90 : Option ℚ
  error_strike : Option ℚ
  depth_error : Option ℚ
  deriving DecidableEq, Repr

/-- Calendar date as produced by `datetime.date` (range validation is in
`mkPyDate`). -/
structure PyDate where
  year : Int
  month : Int
  day : Int
  deriving DecidableEq, Repr

/-- `datetime.date(y, m, d)` with its range validation (per-month day counts
and leap years are approximated by the 1..31 bound; no claim depends on the
finer calendar arithmetic). -/
def mkPyDate (y m d : Int) : Except String PyDate :=
  if 1 ≤ y ∧ y ≤ 9999 ∧ 1 ≤ m ∧ m ≤ 12 ∧ 1 ≤ d ∧ d ≤ 31 then
    Except.ok { year := y, month := m, day := d }
  else
    Except.error "ValueError: date value out of range"

/-- Time of day as produced by `datetime.time`. -/
structure PyTime where
  hour : Int
  minute : Int
  second : Int
  microsecond : Int
  deriving DecidableEq, Repr

/-- `datetime.time(h, m, s, us)` with its range validation. -/
def mkPyTime (h m s us : Int) : Except String PyTime :=
  if 0 ≤ h ∧ h ≤ 23 ∧ 0 ≤ m ∧ m ≤ 59 ∧ 0 ≤ s ∧ s ≤ 59 ∧ 0 ≤ us ∧ us ≤ 999999 then
    Except.ok { hour := h, minute := m, second := s, microsecond := us }
  else
    Except.error "ValueError: time value out of range"

/-- Free-form origin metadata block (isf_catalogue.py docstring fields). -/
structure OriginMetadata where
  Nphases : Option Int
  Nstations : Option Int
  AzimuthGap : Option ℚ
  minDist : Option ℚ
  maxDist : Option ℚ
  FixedTime : String
  DepthSolution : String
  AnalysisType : String
  LocationMethod : String
  EventType : String
  deriving DecidableEq, Repr

/-- `Origin` (isf_catalogue.py).  The derived display field `date_time_str`
is not modelled. -/
structure Origin where
  id : String
  date : PyDate
  time : PyTime
  location : Location
  author : String
  is_prime : Bool
  is_centroid : Bool
  time_error : Option ℚ
  time_rms : Option ℚ
  metadata : Option OriginMetadata
  magnitudes : List Magnitude
  deriving DecidableEq, Repr

/-- The overwritten `has_magnitude` flag of `merge_secondary_magnitudes`:
each comparison result replaces the previous one, so only the comparison
against the last existing magnitude survives the loop (any raised integrity
error still propagates). -/
def compareAgainstAll (existing : List Magnitude) (m1 : Magnitude) :
    Except String Bool :=
  match existing with
  | [] => Except.ok false
  | m2 :: rest =>
    match m2.compare_magnitude m1 with
    | Except.error e => Except.error e
    | Except.ok b =>
      match rest with
      | [] => Except.ok b
      | _ :: _ => compareAgainstAll rest m1

/-- The incoming-magnitude loop of `Origin.merge_secondary_magnitudes`. -/
def mergeMagLoop (existing : List Magnitude) (incoming : List Magnitude) :
    Except String (List Magnitude) :=
  match incoming with
  | [] => Except.ok existing
  | m1 :: rest =>
    match compareAgainstAll existing m1 with
    | Except.error e => Except.error e
    | Except.ok has =>
      mergeMagLoop (if has then existing else existing ++ [m1]) rest

/-- `Origin.merge_secondary_magnitudes`: with no magnitudes present the
incoming list is adopted wholesale, otherwise the loop above runs. -/
def Origin.merge_secondary_magnitudes (self : Origin) (magnitudes : List Magnitude) :
    Except String Origin :=
  if self.magnitudes.length = 0 then
    Except.ok { self with magnitudes := magnitudes }
  else
    match mergeMagLoop self.magnitudes magnitudes with
    | Except.error e => Except.error e
    | Except.ok ms => Except.ok { self with magnitudes := ms }

/-- `Event` (isf_catalogue.py). -/
structure Event where
  id : String
  origins : List Origin
  magnitudes : List Magnitude
  description : Option String
  comment : String
  deriving DecidableEq, Repr

/-- `Event.assign_magnitudes_to_origins`: every magnitude whose origin id
matches an origin is appended to that origin; with zero magnitudes or zero
origins the source returns early (a constructed-but-unraised ValueError)
leaving the event unchanged. -/
def Event.assign_magnitudes_to_origins (self : Event) : Event :=
  if self.magnitudes.length = 0 then self
  else if self.origins.length = 0 then self
  else
    { self with
      origins := self.origins.map fun o =>
        { o with
          magnitudes := o.magnitudes ++
            self.magnitudes.filter (fun m => decide (o.id = m.origin_id)) } }

/-- First index of `x` in `l` (Python `list.index` guarded by `in`). -/
def firstIdxOf (x : String) : List String → Option Nat
  | [] => none
  | y :: rest => if y = x then some 0 else (firstIdxOf x rest).map (· + 1)

/-- The secondary-origin loop of `Event.merge_secondary_origin`.  `ids` is the
id snapshot taken before the loop (the source computes `current_id_list`
once); a matching id merges magnitudes into the first matching slot, a fresh
id appends the secondary origin wholesale. -/
def mergeOriginLoop (ids : List String) (origins : List Origin) :
    List Origin → Except String (List Origin)
  | [] => Except.ok origins
  | o2 :: rest =>
    match firstIdxOf o2.id ids with
    | some loc =>
      match (origins.getD loc o2).merge_secondary_magnitudes o2.magnitudes with
      | Except.error e => Except.error e
      | Except.ok origin2 => mergeOriginLoop ids (origins.set loc origin2) rest
    | none => mergeOriginLoop ids (origins ++ [o2]) rest

/-- `Event.merge_secondary_origin`. -/
def Event.merge_secondary_origin (self : Event) (origin2set : List Origin) :
    Except String Event :=
  match mergeOriginLoop (self.origins.map Origin.id) self.origins origin2set with
  | Except.error e => Except.error e
  | Except.ok origins2 => Except.ok { self with origins := origins2 }

/-- `ISFCatalogue` (isf_catalogue.py). -/
structure ISFCatalogue where
  id : String
  name : String
  events : List Event
  deriving DecidableEq, Repr

/-- The secondary-event loop of `ISFCatalogue.merge_second_catalogue`:
secondary events whose key occurs among the native keys are merged in place,
all others are skipped. -/
def mergeCatLoop (native_keys : List String) (events : List Event) :
    List Event → Except String (List Event)
  | [] => Except.ok events
  | ev2 :: rest =>
    match firstIdxOf ev2.id native_keys with
    | some loc =>
      match (events.getD loc ev2).merge_secondary_origin ev2.origins with
      | Except.error e => Except.error e
      | Except.ok event2 => mergeCatLoop native_keys (events.set loc event2) rest
    | none => mergeCatLoop native_keys events rest

/-- `ISFCatalogue.merge_second_catalogue`. -/
def ISFCatalogue.merge_second_catalogue (self catalogue : ISFCatalogue) :
    Except String ISFCatalogue :=
  match mergeCatLoop (self.events.map Event.id) self.events catalogue.events with
  | Except.error e => Except.error e
  | Except.ok events2 => Except.ok { self with events := events2 }

/-! ## ISF reader (eqcat/parsers/isf_catalogue_reader.py) -/

/-- The canonical origin-section column-header line. -/
def origin_header : String :=
  "   Date       Time        Err   RMS Latitude Longitude  Smaj  Smin  Az Depth   Err Ndef Nsta Gap  mdist  Mdist Qual   Author      OrigID"

/-- The canonical magnitude-section column-header line. -/
def magnitude_header : String := "Magnitude  Err Nsta Author      OrigID"

/-- Python numeric truthiness of an optional float: None and 0.0 are falsy. -/
def pyTruthyQ : Option ℚ → Bool
  | none => false
  | some v => decide (v ≠ 0)

/-- The reader object after `ISFReader.__init__`.  The filename and the
inherited storage of `BaseCatalogueDatabaseReader.__init__` (modelled from
the spec: base.py is not among the sources; per section 6 the base
constructor stores the agency allow-lists) carry no further behaviour. -/
structure ISFReader where
  selected_origin_agencies : List String
  selected_magnitude_agencies : List String
  rejection_keywords : List String
  store_comments : Bool
  lower_mag : Option ℚ
  upper_mag : Option ℚ
  lower_long : ℚ
  lower_lat : ℚ
  upper_long : ℚ
  upper_lat : ℚ
  deriving DecidableEq, Repr

/-- `ISFReader.__init__`: the two eager `assert` statements, Python numeric
truthiness for the magnitude bounds (a bound of 0.0 is falsy, hence treated
as absent), and the whole-globe bounding-box defaults.  `none` for a stored
magnitude bound stands for the infinite numpy default. -/
def mkISFReader (selected_origin_agencies selected_magnitude_agencies
    rejection_keywords : List String) (bbox : List ℚ)
    (lower_magnitude upper_magnitude : Option ℚ) (store_all_comments : Bool) :
    Except String ISFReader :=
  if pyTruthyQ lower_magnitude = true ∧ pyTruthyQ upper_magnitude = true ∧
      ¬ (lower_magnitude.getD 0 < upper_magnitude.getD 0) then
    Except.error "AssertionError: assert upper_magnitude > lower_magnitude"
  else if bbox.length ≠ 0 ∧ bbox.length ≠ 4 then
    Except.error "AssertionError: assert len(bbox) == 4"
  else
    Except.ok
      { selected_origin_agencies := selected_origin_agencies
        selected_magnitude_agencies := selected_magnitude_agencies
        rejection_keywords := rejection_keywords
        store_comments := store_all_comments
        lower_mag := if pyTruthyQ lower_magnitude then lower_magnitude else none
        upper_mag := if pyTruthyQ upper_magnitude then upper_magnitude else none
        lower_long := if bbox.length ≠ 0 then bbox.getD 0 0 else -180
        lower_lat := if bbox.length ≠ 0 then bbox.getD 1 0 else -90
        upper_long := if bbox.length ≠ 0 then bbox.getD 2 0 else 180
        upper_lat := if bbox.length ≠ 0 then bbox.getD 3 0 else 90 }

/-- `get_event_header_row`: whitespace-split; token 1 is the event id, the
rest is the description.  A bare "Event" line raises IndexError. -/
def get_event_header_row (row : String) : Except String Event :=
  match pySplitWs row with
  | _ :: eid :: rest =>
    Except.ok
      { id := eid, origins := [], magnitudes := []
        description := some (String.intercalate " " rest), comment := "" }
  | _ => Except.error "IndexError: list index out of range"

/-- `get_time_from_str`: parse hh:mm:ss.ss from columns 11..21 plus the time
error and RMS decoders.  int() truncation of the fractional microseconds is
exact floor here since the value is non-negative. -/
def get_time_from_str (row : String) :
    Except String (PyTime × Option ℚ × Option ℚ) :=
  let hms := pySplitOnChar (pySlice row 11 22) ':'
  if hms.length < 3 then Except.error "IndexError: list index out of range"
  else
    match pyInt (hms.getD 0 "") with
    | Except.error e => Except.error e
    | Except.ok hours =>
      match pyInt (hms.getD 1 "") with
      | Except.error e => Except.error e
      | Except.ok minutes =>
        match pyFloat (hms.getD 2 "") with
        | Except.error e => Except.error e
        | Except.ok secs =>
          let seconds : Int := Rat.floor secs
          let microseconds : Int := Rat.floor ((secs - (seconds : ℚ)) * 1000000)
          match mkPyTime hours minutes seconds microseconds with
          | Except.error e => Except.error e
          | Except.ok t =>
            Except.ok (t, _to_float (pySlice row 24 29), _to_float (pySlice row 30 35))

/-- `get_origin_metadata`: the fixed-column metadata decoders (the source
single-character indexings row[22], row[54], row[111], row[113] are written
as the equivalent one-character slices; the caller guarantees length 136). -/
def get_origin_metadata (row : String) : OriginMetadata :=
  { Nphases := _to_int (pySlice row 83 87)
    Nstations := _to_int (pySlice row 88 92)
    AzimuthGap := _to_float (pySlice row 93 96)
    minDist := _to_float (pySlice row 97 103)
    maxDist := _to_float (pySlice row 104 110)
    FixedTime := _to_str (pySlice row 22 23)
    DepthSolution := _to_str (pySlice row 54 55)
    AnalysisType := _to_str (pySlice row 111 112)
    LocationMethod := _to_str (pySlice row 113 114)
    EventType := _to_str (pySlice row 115 117) }

/-- `get_event_origin_row`: fixed-width origin-line decoding; `ok none` when
an origin-agency allow-list is configured and the author is not on it. -/
def get_event_origin_row (row : String) (selected_agencies : List String) :
    Except String (Option Origin) :=
  let origin_id := _to_str (pySliceFrom row 128)
  let author := _to_str (pySlice row 118 127)
  if selected_agencies.length ≠ 0 ∧ ¬ (author ∈ selected_agencies) then
    Except.ok none
  else
    match ((pySplitOnChar (pySlice row 0 10) '/').mapM pyInt :
        Except String (List Int)) with
    | Except.error e => Except.error e
    | Except.ok ymd =>
      if ymd.length < 3 then Except.error "IndexError: list index out of range"
      else
        match mkPyDate (ymd.getD 0 0) (ymd.getD 1 0) (ymd.getD 2 0) with
        | Except.error e => Except.error e
        | Except.ok date =>
          match get_time_from_str row with
          | Except.error e => Except.error e
          | Except.ok (time, time_error, time_rms) =>
            match pyFloat (pySlice row 36 44) with
            | Except.error e => Except.error e
            | Except.ok latitude =>
              match pyFloat (pySlice row 45 54) with
              | Except.error e => Except.error e
              | Except.ok longitude =>
                Except.ok (some
                  { id := origin_id
                    date := date
                    time := time
                    location :=
                      { identifier := origin_id
                        longitude := longitude
                        latitude := latitude
                        depth := _to_float (pySlice row 71 75)
                        depthSolution := _to_str (pySlice row 76 78)
                        semimajor90 := _to_float (pySlice row 55 60)
                        semiminor90 := _to_float (pySlice row 61 66)
                        error_strike := _to_float (pySlice row 67 70)
                        depth_error := _to_float (pySlice row 78 82) }
                    author := author
                    is_prime := false
                    is_centroid := false
                    time_error := time_error
                    time_rms := time_rms
                    metadata := some (get_origin_metadata row)
                    magnitudes := [] })

/-- `get_event_magnitude`: fixed-width magnitude-line decoding; `ok none`
when a magnitude-agency allow-list is configured and the author is not on it;
a blank value column makes the Magnitude constructor raise. -/
def get_event_magnitude (row : String) (event_id : String)
    (selected_agencies : List String) : Except String (Option Magnitude) :=
  let origin_id := _to_str (pySliceFrom row 30)
  let author := pyStripSpaces (pySlice row 20 29)
  let scale := pyStripSpaces (pySlice row 0 5)
  if selected_agencies.length ≠ 0 ∧ ¬ (author ∈ selected_agencies) then
    Except.ok none
  else
    match mkMagnitude event_id origin_id (_to_float (pySlice row 6 10)) author
        (some scale) (_to_float (pySlice row 11 14)) (_to_int (pySlice row 15 19)) with
    | Except.error e => Except.error e
    | Except.ok m => Except.ok (some m)

/-! ## Reader state machine -/

/-- The per-event accumulators of the `read_file` loop: the local variables
`event`, `origins` and `magnitudes` become bound together at the first Event
header row and are modelled as one optional record. -/
structure EventAcc where
  event : Event
  origins : List Origin
  magnitudes : List Magnitude
  deriving DecidableEq, Repr

/-- The mutable state of one `read_file` call: the per-event accumulators
(none while still unbound, so that referencing them raises NameError), the
event counter, the section flags, the running comment buffer, the accepted
events of `self.catalogue` and the rejected-events side channel. -/
structure ReaderState where
  current : Option EventAcc
  counter : Nat
  is_origin : Bool
  is_magnitude : Bool
  comment_str : String
  events : List Event
  rejected : List Event
  deriving DecidableEq, Repr

/-- The state at the top of `read_file`. -/
def initReaderState : ReaderState :=
  { current := none, counter := 0, is_origin := false, is_magnitude := false
    comment_str := "", events := [], rejected := [] }

/-- Mark the last element of a list of origins. -/
def setLast (f : Origin → Origin) : List Origin → List Origin
  | [] => []
  | [o] => [f o]
  | o :: rest => o :: setLast f rest

/-- Extract the text before the first closing bracket, if one occurs. -/
def takeToClose : List Char → Option (List Char)
  | [] => none
  | c :: rest =>
    if c = ')' then some []
    else (takeToClose rest).map (fun l => c :: l)

/-- The comment search of the reader: the lazy regex finds the first opening
bracket and captures up to the first closing bracket after it; no match when
no closing bracket follows the first opening one. -/
def extractCommentList : List Char → Option (List Char)
  | [] => none
  | c :: rest => if c = '(' then takeToClose rest else extractCommentList rest

/-- String form of `extractCommentList`. -/
def extractComment (row : String) : Option String :=
  (extractCommentList row.toList).map List.asString

/-- The any-magnitude-in-window check of `ISFReader._acceptance` (a `none`
bound stands for the infinite default and always passes). -/
def ISFReader.validMagnitude (cfg : ISFReader) (event : Event) : Bool :=
  event.magnitudes.any fun mag =>
    (match cfg.lower_mag with
      | none => true
      | some l => decide (l ≤ mag.value)) &&
    (match cfg.upper_mag with
      | none => true
      | some u => decide (mag.value ≤ u))

/-- The any-origin-in-bbox check of `ISFReader._acceptance`. -/
def ISFReader.validLocation (cfg : ISFReader) (event : Event) : Bool :=
  event.origins.any fun orig =>
    decide (cfg.lower_long ≤ orig.location.longitude) &&
    decide (orig.location.longitude ≤ cfg.upper_long) &&
    decide (cfg.lower_lat ≤ orig.location.latitude) &&
    decide (orig.location.latitude ≤ cfg.upper_lat)

/-- The case-insensitive keyword scan of `ISFReader._acceptance`. -/
def ISFReader.keywordHit (cfg : ISFReader) (event : Event) : Bool :=
  cfg.rejection_keywords.any fun kw =>
    strContains (pyLower event.comment) (pyLower kw)

/-- `ISFReader._acceptance`: magnitude window first, then bounding box, then
rejection keywords; only the keyword branch records the event into the
rejected side channel. -/
def ISFReader._acceptance (cfg : ISFReader) (rejected : List Event)
    (event : Event) : Bool × List Event :=
  if !(cfg.validMagnitude event) then (false, rejected)
  else if !(cfg.validLocation event) then (false, rejected)
  else if cfg.keywordHit event then (false, rejected ++ [event])
  else (true, rejected)

/-- `ISFReader._build_event`: attach accumulators, and only when both origins
and magnitudes are present cross-assign magnitudes, set the comment, and run
the acceptance filter; accepted events lose their comment unless comment
storage was requested. -/
def ISFReader._build_event (cfg : ISFReader) (events rejected : List Event)
    (event : Event) (origins : List Origin) (magnitudes : List Magnitude)
    (comment_str : String) : List Event × List Event :=
  let event := { event with origins := origins, magnitudes := magnitudes }
  if origins.length ≠ 0 ∧ magnitudes.length ≠ 0 then
    let event := { event.assign_magnitudes_to_origins with comment := comment_str }
    let p := cfg._acceptance rejected event
    if p.1 then
      (events ++ [if cfg.store_comments then event else { event with comment := "" }],
       p.2)
    else (events, p.2)
  else (events, rejected)

/-- One iteration of the `read_file` row loop, in the precedence order of the
source: blank row, boilerplate rows, prime marker, centroid marker,
bracketed comment, event header, section headers, magnitude data row, origin
data row, silent drop. -/
def processRow (cfg : ISFReader) (st : ReaderState) (row : String) :
    Except String ReaderState :=
  if row = "" then Except.ok st
  else if strContains row "DATA_TYPE EVENT IMS1.0" then Except.ok st
  else if strContains row "ISC Bulletin" then Except.ok st
  else if strContains row "STOP" then Except.ok st
  else if strContains row "(#PRIME)" then
    match st.current with
    | none => Except.error "NameError: name origins is not defined"
    | some acc =>
      if acc.origins.length > 0 then
        let acc2 := { acc with
          origins := setLast (fun o => { o with is_prime := true }) acc.origins }
        Except.ok { st with current := some acc2 }
      else Except.ok st
  else if strContains row "(#CENTROID)" then
    match st.current with
    | none => Except.error "NameError: name origins is not defined"
    | some acc =>
      if acc.origins.length > 0 then
        let acc2 := { acc with
          origins := setLast (fun o => { o with is_centroid := true }) acc.origins }
        Except.ok { st with current := some acc2 }
      else Except.ok st
  else
    match extractComment row with
    | some c => Except.ok { st with comment_str := st.comment_str ++ c ++ "\n" }
    | none =>
      if strContains (pySlice row 0 5) "Event" then
        match (if st.counter > 0 then
            match st.current with
            | none => Except.error "NameError: name event is not defined"
            | some acc =>
              Except.ok (cfg._build_event st.events st.rejected acc.event
                acc.origins acc.magnitudes st.comment_str)
          else Except.ok (st.events, st.rejected)) with
        | Except.error e => Except.error e
        | Except.ok (evs, rej) =>
          match get_event_header_row row with
          | Except.error e => Except.error e
          | Except.ok ev =>
            let acc2 : EventAcc := { event := ev, origins := [], magnitudes := [] }
            Except.ok { st with
              events := evs, rejected := rej, current := some acc2
              comment_str := "", counter := st.counter + 1 }
      else if row = origin_header then
        Except.ok { st with is_origin := true, is_magnitude := false }
      else if row = magnitude_header then
        Except.ok { st with is_origin := false, is_magnitude := true }
      else if st.is_magnitude = true ∧ row.length = 38 then
        match st.current with
        | none => Except.error "NameError: name event is not defined"
        | some acc =>
          match get_event_magnitude row acc.event.id cfg.selected_magnitude_agencies with
          | Except.error e => Except.error e
          | Except.ok none => Except.ok st
          | Except.ok (some mag) =>
            let acc2 := { acc with magnitudes := acc.magnitudes ++ [mag] }
            Except.ok { st with current := some acc2 }
      else if st.is_origin = true ∧ row.length = 136 then
        match get_event_origin_row row cfg.selected_origin_agencies with
        | Except.error e => Except.error e
        | Except.ok none => Except.ok st
        | Except.ok (some orig) =>
          match st.current with
          | none => Except.error "NameError: name origins is not defined"
          | some acc =>
            let acc2 := { acc with origins := acc.origins ++ [orig] }
            Except.ok { st with current := some acc2 }
      else Except.ok st

/-- The row loop of `read_file`. -/
def runRows (cfg : ISFReader) (st : ReaderState) : List String →
    Except String ReaderState
  | [] => Except.ok st
  | row :: rest =>
    match processRow cfg st row with
    | Except.error e => Except.error e
    | Except.ok st2 => runRows cfg st2 rest

/-- `ISFReader.read_file`: run the row loop, finalize the pending event (a
reference to the never-bound `event` variable when no Event header occurred),
and wrap any rejected events into their own catalogue with the "-R" and
" - Rejected" suffixes. -/
def ISFReader.read_file (cfg : ISFReader) (identifier name : String)
    (lines : List String) : Except String (ISFCatalogue × Option ISFCatalogue) :=
  match runRows cfg initReaderState lines with
  | Except.error e => Except.error e
  | Except.ok st =>
    match st.current with
    | none => Except.error "NameError: name event is not defined"
    | some acc =>
      let pr := cfg._build_event st.events st.rejected acc.event acc.origins
        acc.magnitudes st.comment_str
      Except.ok
        ({ id := identifier, name := name, events := pr.1 },
          if pr.2.length ≠ 0 then
            some { id := identifier ++ "-R", name := name ++ " - Rejected", events := pr.2 }
          else none)

/-- Spec-side predicate for claim C7 comparison: the entire line content
matches the bracketed-comment pattern, i.e. the full match of the regex (an
opening bracket, a lazily captured body, a closing bracket) spans the whole
line. -/
def entireParenComment (row : String) : Bool :=
  match row.toList with
  | '(' :: c :: cs => decide ((c :: cs).getLast? = some ')')
  | _ => false

/-! ## Concrete sample objects for closed instantiations -/

/-- A reader configuration with all filters at their defaults. -/
def cfg0 : ISFReader :=
  { selected_origin_agencies := [], selected_magnitude_agencies := []
    rejection_keywords := [], store_comments := false
    lower_mag := none, upper_mag := none
    lower_long := -180, lower_lat := -90, upper_long := 180, upper_lat := 90 }

/-- A reader configuration with the magnitude window [6, 7]. -/
def cfg67 : ISFReader := { cfg0 with lower_mag := some 6, upper_mag := some 7 }

/-- A location carrying only an origin id. -/
def sampleLocation (oid : String) : Location :=
  { identifier := oid, longitude := 0, latitude := 0, depth := none
    depthSolution := "", semimajor90 := none, semiminor90 := none
    error_strike := none, depth_error := none }

/-- An origin with the given id and author and no optional data. -/
def sampleOrigin (oid author : String) : Origin :=
  { id := oid, date := { year := 2000, month := 1, day := 1 }
    time := { hour := 0, minute := 0, second := 0, microsecond := 0 }
    location := sampleLocation oid, author := author
    is_prime := false, is_centroid := false
    time_error := none, time_rms := none, metadata := none, magnitudes := [] }

/-- A magnitude with the given key fields and value. -/
def sampleMag (oid author scale : String) (v : ℚ) : Magnitude :=
  { event_id := "E1", origin_id := oid, value := v, author := author
    scale := scale, sigma := none, stations := none }

/-- Magnitude (O1, ISC, Mw, 5.0). -/
def mgA : Magnitude := sampleMag "O1" "ISC" "Mw" 5

/-- Magnitude (O2, NEIC, mb, 4.0). -/
def mgB : Magnitude := sampleMag "O2" "NEIC" "mb" 4

/-- An origin already holding the two magnitudes `mgA` and `mgB`. -/
def oC2 : Origin := { sampleOrigin "P1" "ISC" with magnitudes := [mgA, mgB] }

/-- Primary-catalogue event with id A and one origin O1. -/
def evP : Event :=
  { id := "A", origins := [sampleOrigin "O1" "ISC"], magnitudes := []
    description := none, comment := "" }

/-- Secondary event with the same id A and a fresh origin O2. -/
def evS : Event :=
  { id := "A", origins := [sampleOrigin "O2" "GCMT"], magnitudes := []
    description := none, comment := "" }

/-- Secondary event with id B, absent from the primary. -/
def evN : Event :=
  { id := "B", origins := [], magnitudes := [], description := none, comment := "" }

/-- Primary catalogue. -/
def catP : ISFCatalogue := { id := "P", name := "Primary", events := [evP] }

/-- Secondary catalogue: one unmatched event, one matched event. -/
def catS : ISFCatalogue := { id := "S", name := "Secondary", events := [evN, evS] }

/-- The merge of `catS` into `catP`. -/
def catPS : ISFCatalogue :=
  { id := "P", name := "Primary"
    events := [{ evP with origins := [sampleOrigin "O1" "ISC", sampleOrigin "O2" "GCMT"] }] }

/-- Event whose magnitudes are 5.0 and 6.2. -/
def evM56 : Event :=
  { id := "M1", origins := []
    magnitudes := [sampleMag "O1" "ISC" "Mw" 5, sampleMag "O1" "ISC" "Ms" (mkRat 31 5)]
    description := none, comment := "" }

/-- Event whose magnitudes are 4.0 and 4.5. -/
def evM44 : Event :=
  { id := "M2", origins := []
    magnitudes := [sampleMag "O1" "ISC" "Mw" 4, sampleMag "O1" "ISC" "Ms" (mkRat 9 2)]
    description := none, comment := "" }

/-- Reader state holding a current event with exactly one accumulated origin. -/
def stC6 : ReaderState :=
  { initReaderState with
    current := some { event := evP, origins := [sampleOrigin "O1" "ISC"], magnitudes := [] } }

/-- Reader state holding a current event with no accumulated origins, counter 1. -/
def stC7 : ReaderState :=
  { initReaderState with
    current := some { event := evP, origins := [], magnitudes := [] }, counter := 1 }

/-- Event with two origins of distinct ids (empty magnitude lists) and the
single magnitude `mgA`, whose origin id matches the first origin. -/
def evC8 : Event :=
  { id := "E", origins := [sampleOrigin "O1" "A1", sampleOrigin "O2" "A2"]
    magnitudes := [mgA], description := none, comment := "" }

/-- The event shell produced by the header row "Event 1 test". -/
def evHdr : Event :=
  { id := "1", origins := [], magnitudes := [], description := some "test"
    comment := "" }

/-- Set the is_prime flag of an origin (the prime-marker mutation). -/
def markPrime (o : Origin) : Origin := { o with is_prime := true }

/-- Set the is_centroid flag of an origin (the centroid-marker mutation). -/
def markCentroid (o : Origin) : Origin := { o with is_centroid := true }

/-- Replace the origin accumulator of a bound current event. -/
def withOrigins (st : ReaderState) (acc : EventAcc) (os : List Origin) :
    ReaderState :=
  { st with current := some { acc with origins := os } }

/-- The fresh per-event accumulators created at an Event header row. -/
def freshAcc (e : Event) : EventAcc :=
  { event := e, origins := [], magnitudes := [] }

/-! ## Helper lemmas -/

theorem firstIdxOf_lt (x : String) :
    ∀ (l : List String) (n : Nat), firstIdxOf x l = some n → n < l.length := by
  intro l
  induction l with
  | nil => intro n h; simp [firstIdxOf] at h
  | cons y t ih =>
    intro n h
    by_cases hy : y = x
    · simp only [firstIdxOf, if_pos hy] at h
      cases h
      simp
    · simp only [firstIdxOf, if_neg hy, Option.map_eq_some'] at h
      obtain ⟨m, hm, rfl⟩ := h
      have := ih m hm
      simp only [List.length_cons]
      omega

theorem firstIdxOf_getD (x : String) :
    ∀ (l : List String) (n : Nat) (d : String),
      firstIdxOf x l = some n → l.getD n d = x := by
  intro l
  induction l with
  | nil => intro n d h; simp [firstIdxOf] at h
  | cons y t ih =>
    intro n d h
    by_cases hy : y = x
    · simp only [firstIdxOf, if_pos hy] at h
      cases h
      simpa using hy
    · simp only [firstIdxOf, if_neg hy, Option.map_eq_some'] at h
      obtain ⟨m, hm, rfl⟩ := h
      simpa using ih m d hm

theorem getD_map_comm {α β : Type} (f : α → β) (l : List α) (n : ℕ) (d : α) :
    (l.map f).getD n (f d) = f (l.getD n d) := by
  induction l generalizing n with
  | nil => simp [List.getD]
  | cons a t ih => cases n <;> simp [List.getD, ih]

theorem set_getD_self {α : Type} (l : List α) (n : ℕ) (d : α) (h : n < l.length) :
    l.set n (l.getD n d) = l := by
  induction l generalizing n with
  | nil => simp at h
  | cons a t ih =>
    cases n with
    | zero => simp [List.getD]
    | succ k =>
      simp only [List.getD_cons_succ, List.set_cons_succ, List.cons.injEq, true_and]
      exact ih k (by simpa using h)

theorem merge_secondary_magnitudes_id (o : Origin) (ms : List Magnitude)
    (o2 : Origin) (h : o.merge_secondary_magnitudes ms = Except.ok o2) :
    o2.id = o.id := by
  rw [Origin.merge_secondary_magnitudes] at h
  split at h
  · cases h; rfl
  · split at h
    · cases h
    · cases h; rfl

theorem merge_secondary_origin_id (ev : Event) (o2s : List Origin) (ev2 : Event)
    (h : ev.merge_secondary_origin o2s = Except.ok ev2) : ev2.id = ev.id := by
  rw [Event.merge_secondary_origin] at h
  split at h
  · cases h
  · cases h; rfl

theorem mergeOriginLoop_cons_some_err (ids : List String) (origins : List Origin)
    (o2 : Origin) (rest : List Origin) (loc : Nat) (e : String)
    (h : firstIdxOf o2.id ids = some loc)
    (hm : (origins.getD loc o2).merge_secondary_magnitudes o2.magnitudes =
      Except.error e) :
    mergeOriginLoop ids origins (o2 :: rest) = Except.error e := by
  rw [mergeOriginLoop, h]
  simp only [hm]

theorem mergeOriginLoop_cons_some_ok (ids : List String) (origins : List Origin)
    (o2 : Origin) (rest : List Origin) (loc : Nat) (origin2 : Origin)
    (h : firstIdxOf o2.id ids = some loc)
    (hm : (origins.getD loc o2).merge_secondary_magnitudes o2.magnitudes =
      Except.ok origin2) :
    mergeOriginLoop ids origins (o2 :: rest) =
      mergeOriginLoop ids (origins.set loc origin2) rest := by
  rw [mergeOriginLoop, h]
  simp only [hm]

theorem mergeOriginLoop_cons_none (ids : List String) (origins : List Origin)
    (o2 : Origin) (rest : List Origin) (h : firstIdxOf o2.id ids = none) :
    mergeOriginLoop ids origins (o2 :: rest) =
      mergeOriginLoop ids (origins ++ [o2]) rest := by
  rw [mergeOriginLoop, h]

theorem mergeOriginLoop_ok_shape (ids : List String) :
    ∀ (o2s pre app res : List Origin),
      pre.map Origin.id = ids →
      mergeOriginLoop ids (pre ++ app) o2s = Except.ok res →
      ∃ pre2 : List Origin, pre2.map Origin.id = ids ∧
        res = pre2 ++ app ++ o2s.filter (fun o => (firstIdxOf o.id ids).isNone) := by
  intro o2s
  induction o2s with
  | nil =>
    intro pre app res hpre h
    rw [mergeOriginLoop] at h
    cases h
    exact ⟨pre, hpre, by simp⟩
  | cons o2 rest ih =>
    intro pre app res hpre h
    cases hidx : firstIdxOf o2.id ids with
    | some loc =>
      have hloc : loc < ids.length := firstIdxOf_lt _ _ _ hidx
      have hlocp : loc < pre.length := by
        rw [← hpre] at hloc; simpa using hloc
      have hgdapp : (pre ++ app).getD loc o2 = pre.getD loc o2 :=
        List.getD_append _ _ _ _ hlocp
      cases hmm : (pre.getD loc o2).merge_secondary_magnitudes o2.magnitudes with
      | error e =>
        rw [mergeOriginLoop_cons_some_err ids (pre ++ app) o2 rest loc e hidx
          (by rw [hgdapp]; exact hmm)] at h
        cases h
      | ok origin2 =>
        rw [mergeOriginLoop_cons_some_ok ids (pre ++ app) o2 rest loc origin2 hidx
          (by rw [hgdapp]; exact hmm)] at h
        rw [List.set_append, if_pos hlocp] at h
        have hid2 : origin2.id = (pre.getD loc o2).id :=
          merge_secondary_magnitudes_id _ _ _ hmm
        have hpre2 : (pre.set loc origin2).map Origin.id = ids := by
          rw [List.map_set, hid2]
          have hgd : (pre.getD loc o2).id = ids.getD loc (o2.id) := by
            rw [← hpre]; exact (getD_map_comm Origin.id pre loc o2).symm
          rw [hgd, hpre]
          exact set_getD_self ids loc (o2.id) hloc
        obtain ⟨pre2, hp2, hres⟩ := ih (pre.set loc origin2) app res hpre2 h
        refine ⟨pre2, hp2, ?_⟩
        rw [hres, List.filter_cons]
        simp [hidx]
    | none =>
      rw [mergeOriginLoop_cons_none ids (pre ++ app) o2 rest hidx, List.append_assoc] at h
      obtain ⟨pre2, hp2, hres⟩ := ih pre (app ++ [o2]) res hpre h
      refine ⟨pre2, hp2, ?_⟩
      rw [hres, List.filter_cons]
      simp [hidx, List.append_assoc]

theorem mergeOriginLoop_all_new (ids : List String) :
    ∀ (o2s acc : List Origin), (∀ o ∈ o2s, firstIdxOf o.id ids = none) →
      mergeOriginLoop ids acc o2s = Except.ok (acc ++ o2s) := by
  intro o2s
  induction o2s with
  | nil => intro acc _; rw [mergeOriginLoop, List.append_nil]
  | cons o2 rest ih =>
    intro acc h
    rw [mergeOriginLoop_cons_none ids acc o2 rest (h o2 (by simp))]
    rw [ih (acc ++ [o2]) (fun o ho => h o (by simp [ho]))]
    simp

theorem merge_secondary_origin_shape (ev : Event) (o2s : List Origin) (ev2 : Event)
    (h : ev.merge_secondary_origin o2s = Except.ok ev2) :
    ev2.id = ev.id ∧ ∃ pre2 : List Origin,
      pre2.map Origin.id = ev.origins.map Origin.id ∧
      ev2.origins = pre2 ++ o2s.filter
        (fun o => (firstIdxOf o.id (ev.origins.map Origin.id)).isNone) := by
  rw [Event.merge_secondary_origin] at h
  cases hmm : mergeOriginLoop (ev.origins.map Origin.id) ev.origins o2s with
  | error e => rw [hmm] at h; cases h
  | ok origins2 =>
    rw [hmm] at h
    cases h
    refine ⟨rfl, ?_⟩
    have hmm2 : mergeOriginLoop (ev.origins.map Origin.id) (ev.origins ++ []) o2s =
        Except.ok origins2 := by rw [List.append_nil]; exact hmm
    obtain ⟨pre2, hp, hres⟩ :=
      mergeOriginLoop_ok_shape (ev.origins.map Origin.id) o2s ev.origins [] origins2 rfl hmm2
    exact ⟨pre2, hp, by simpa using hres⟩

theorem mergeCatLoop_cons_some_err (keys : List String) (evs : List Event)
    (ev2 : Event) (rest : List Event) (loc : Nat) (e : String)
    (h : firstIdxOf ev2.id keys = some loc)
    (hm : (evs.getD loc ev2).merge_secondary_origin ev2.origins = Except.error e) :
    mergeCatLoop keys evs (ev2 :: rest) = Except.error e := by
  rw [mergeCatLoop, h]
  simp only [hm]

theorem mergeCatLoop_cons_some_ok (keys : List String) (evs : List Event)
    (ev2 : Event) (rest : List Event) (loc : Nat) (event2 : Event)
    (h : firstIdxOf ev2.id keys = some loc)
    (hm : (evs.getD loc ev2).merge_secondary_origin ev2.origins = Except.ok event2) :
    mergeCatLoop keys evs (ev2 :: rest) = mergeCatLoop keys (evs.set loc event2) rest := by
  rw [mergeCatLoop, h]
  simp only [hm]

theorem mergeCatLoop_cons_none (keys : List String) (evs : List Event)
    (ev2 : Event) (rest : List Event) (h : firstIdxOf ev2.id keys = none) :
    mergeCatLoop keys evs (ev2 :: rest) = mergeCatLoop keys evs rest := by
  rw [mergeCatLoop, h]

theorem mergeCatLoop_map_id (keys : List String) :
    ∀ (secs : List Event) (evs res : List Event),
      evs.map Event.id = keys →
      mergeCatLoop keys evs secs = Except.ok res →
      res.map Event.id = keys := by
  intro secs
  induction secs with
  | nil =>
    intro evs res hk h
    rw [mergeCatLoop] at h
    cases h
    exact hk
  | cons ev2 rest ih =>
    intro evs res hk h
    cases hidx : firstIdxOf ev2.id keys with
    | some loc =>
      have hloc : loc < keys.length := firstIdxOf_lt _ _ _ hidx
      cases hmm : (evs.getD loc ev2).merge_secondary_origin ev2.origins with
      | error e =>
        rw [mergeCatLoop_cons_some_err keys evs ev2 rest loc e hidx hmm] at h
        cases h
      | ok event2 =>
        rw [mergeCatLoop_cons_some_ok keys evs ev2 rest loc event2 hidx hmm] at h
        refine ih _ _ ?_ h
        rw [List.map_set, merge_secondary_origin_id _ _ _ hmm]
        have hgd : (evs.getD loc ev2).id = keys.getD loc (ev2.id) := by
          rw [← hk]; exact (getD_map_comm Event.id evs loc ev2).symm
        rw [hgd, hk]
        exact set_getD_self keys loc (ev2.id) hloc
    | none =>
      rw [mergeCatLoop_cons_none keys evs ev2 rest hidx] at h
      exact ih _ _ hk h

theorem countP_origin_id_one :
    ∀ (l : List Origin) (x : String),
      (l.map Origin.id).Nodup → x ∈ l.map Origin.id →
      l.countP (fun o => decide (o.id = x)) = 1 := by
  intro l
  induction l with
  | nil => intro x _ hx; simp at hx
  | cons o t ih =>
    intro x hnd hx
    rw [List.map_cons, List.nodup_cons] at hnd
    rw [List.map_cons, List.mem_cons] at hx
    rw [List.countP_cons]
    rcases hx with hx | hx
    · subst hx
      have h0 : t.countP (fun o2 => decide (o2.id = o.id)) = 0 := by
        rw [List.countP_eq_zero]
        intro a ha hpa
        rw [decide_eq_true_eq] at hpa
        exact hnd.1 (List.mem_map.mpr ⟨a, ha, hpa⟩)
      simp [h0]
    · have hne : ¬ (o.id = x) := fun he => hnd.1 (he ▸ hx)
      simp [ih x hnd.2 hx, hne]

/-! ## Claim theorems -/

/-- Claim C1: comparing two Magnitude instances with the same origin id,
author and scale raises a data-integrity error when the values differ by more
than 1e-3 and reports them equal when the difference is at most 1e-3; with a
differing origin id, author or scale no error is raised and the magnitudes
are reported distinct. -/
theorem spec_C1 (m1 m2 : Magnitude) :
    (m2.origin_id = m1.origin_id ∧ m2.author = m1.author ∧ m2.scale = m1.scale →
      ((mkRat 1 1000 < fabs (m2.value - m1.value) →
         ∃ e, m1.compare_magnitude m2 = Except.error e) ∧
       (fabs (m2.value - m1.value) ≤ mkRat 1 1000 →
         m1.compare_magnitude m2 = Except.ok true))) ∧
    (¬ (m2.origin_id = m1.origin_id ∧ m2.author = m1.author ∧ m2.scale = m1.scale) →
      m1.compare_magnitude m2 = Except.ok false) := by
  constructor
  · intro hkey
    constructor
    · intro hgt
      exact ⟨_, by rw [Magnitude.compare_magnitude, if_pos hkey, if_pos hgt]⟩
    · intro hle
      rw [Magnitude.compare_magnitude, if_pos hkey, if_neg (not_lt.mpr hle)]
  · intro hkey
    rw [Magnitude.compare_magnitude, if_neg hkey]

/-- Witness for C1: a concrete pair differing by 0.002 errors, a pair
differing by 0.0005 is reported equal, and a pair with different metadata is
reported distinct. -/
theorem spec_C1_witness :
    (∃ e, mgA.compare_magnitude (sampleMag "O1" "ISC" "Mw" (mkRat 5002 1000)) =
      Except.error e) ∧
    mgA.compare_magnitude (sampleMag "O1" "ISC" "Mw" (mkRat 10001 2000)) =
      Except.ok true ∧
    mgA.compare_magnitude mgB = Except.ok false := by
  refine ⟨?_, ?_, ?_⟩
  · exact ((spec_C1 mgA (sampleMag "O1" "ISC" "Mw" (mkRat 5002 1000))).1
      (by decide)).1 (by with_unfolding_all decide)
  · exact ((spec_C1 mgA (sampleMag "O1" "ISC" "Mw" (mkRat 10001 2000))).1
      (by decide)).2 (by with_unfolding_all decide)
  · exact (spec_C1 mgA mgB).2 (by decide)

/-- Claim C2 (code defect witness): merging the magnitude `mgA` into an
origin that already contains `mgA` followed by the differently-keyed `mgB`
appends the duplicate instead of dropping it — only the comparison against
the last existing magnitude decides the append, because the loop overwrites
`has_magnitude` on every iteration. -/
theorem spec_C2 : oC2.merge_secondary_magnitudes [mgA] =
    Except.ok ({ oC2 with magnitudes := [mgA, mgB, mgA] }) := by
  with_unfolding_all rfl

/-- Claim C5: the magnitude stage of the acceptance filter passes exactly
when at least one magnitude value lies in the configured window. -/
theorem spec_C5 (cfg : ISFReader) (ev : Event) (l u : ℚ)
    (hl : cfg.lower_mag = some l) (hu : cfg.upper_mag = some u) :
    cfg.validMagnitude ev = true ↔
      ∃ m ∈ ev.magnitudes, l ≤ m.value ∧ m.value ≤ u := by
  simp [ISFReader.validMagnitude, hl, hu, List.any_eq_true]

/-- Witness for C5: with window [6, 7] the event with magnitudes 5.0 and 6.2
passes the magnitude stage and the event with magnitudes 4.0 and 4.5 fails
it. -/
theorem spec_C5_witness :
    cfg67.validMagnitude evM56 = true ∧ cfg67.validMagnitude evM44 = false := by
  constructor
  · exact (spec_C5 cfg67 evM56 6 7 rfl rfl).mpr
      ⟨sampleMag "O1" "ISC" "Ms" (mkRat 31 5), by with_unfolding_all decide,
        by with_unfolding_all decide, by with_unfolding_all decide⟩
  · with_unfolding_all decide

/-- Claim C9 (amended): the constructor fails on inverted magnitude bounds
whenever both bounds are configured with nonzero values, and fails on a
non-empty bounding box whose length is not 4. -/
theorem spec_C9 (selA selM kw : List String) (bbox : List ℚ)
    (lo hi : Option ℚ) (store : Bool) :
    (∀ l u : ℚ, lo = some l → l ≠ 0 → hi = some u → u ≠ 0 → u ≤ l →
      mkISFReader selA selM kw bbox lo hi store =
        Except.error "AssertionError: assert upper_magnitude > lower_magnitude") ∧
    (bbox ≠ [] → bbox.length ≠ 4 →
      ∃ e, mkISFReader selA selM kw bbox lo hi store = Except.error e) := by
  constructor
  · intro l u hlo hl0 hhi hu0 hul
    subst hlo; subst hhi
    rw [mkISFReader, if_pos]
    refine ⟨by simp [pyTruthyQ, hl0], by simp [pyTruthyQ, hu0], ?_⟩
    simpa using not_lt.mpr hul
  · intro hne hlen
    rw [mkISFReader]
    by_cases hmag : (pyTruthyQ lo = true ∧ pyTruthyQ hi = true ∧
        ¬ (lo.getD 0 < hi.getD 0))
    · exact ⟨_, by rw [if_pos hmag]⟩
    · refine ⟨"AssertionError: assert len(bbox) == 4", ?_⟩
      rw [if_neg hmag,
        if_pos ⟨(by simpa [List.length_eq_zero] using hne), hlen⟩]

/-- Witness for C9 (amended): bounds lower 3 and upper 2 (both nonzero) make
the constructor fail, as does the length-3 bounding box. -/
theorem spec_C9_witness :
    mkISFReader [] [] [] [] (some 3) (some 2) false =
      Except.error "AssertionError: assert upper_magnitude > lower_magnitude" ∧
    (∃ e, mkISFReader [] [] [] [(1 : ℚ), 2, 3] none none false = Except.error e) := by
  constructor
  · exact (spec_C9 [] [] [] [] (some 3) (some 2) false).1 3 2 rfl
      (by norm_num) rfl (by norm_num) (by norm_num)
  · exact (spec_C9 [] [] [] [(1 : ℚ), 2, 3] none none false).2
      (by simp) (by simp)

/-- Counterexample for C9 as stated: with both magnitude bounds configured,
lower 0.0 and upper -1.0 (an upper bound not strictly greater than the
lower), the constructor succeeds — Python numeric truthiness makes the 0.0
bound falsy, skipping the assert. -/
theorem spec_C9_counterexample :
    (mkISFReader [] [] [] [] (some 0) (some (-1)) false).isOk = true := by rfl

/-- Claim C3: merging a secondary catalogue never adds events — the primary
event-id list is unchanged — and origin merging appends exactly the secondary
origins whose id is not among the primary event origin-id snapshot (wholesale,
magnitudes attached), while matched ids are merged in place without changing
the origin-id list. -/
theorem spec_C3 (self sec cat2 : ISFCatalogue)
    (h : self.merge_second_catalogue sec = Except.ok cat2) :
    cat2.events.map Event.id = self.events.map Event.id ∧
    (∀ (ev : Event) (o2s : List Origin) (ev2 : Event),
      ev.merge_secondary_origin o2s = Except.ok ev2 →
      ∃ pre2 : List Origin, pre2.map Origin.id = ev.origins.map Origin.id ∧
        ev2.origins = pre2 ++ o2s.filter
          (fun o => (firstIdxOf o.id (ev.origins.map Origin.id)).isNone)) ∧
    (∀ (ev : Event) (o2s : List Origin),
      (∀ o ∈ o2s, firstIdxOf o.id (ev.origins.map Origin.id) = none) →
      ev.merge_secondary_origin o2s =
        Except.ok ({ ev with origins := ev.origins ++ o2s })) := by
  refine ⟨?_, ?_, ?_⟩
  · rw [ISFCatalogue.merge_second_catalogue] at h
    cases hmm : mergeCatLoop (self.events.map Event.id) self.events sec.events with
    | error e => rw [hmm] at h; cases h
    | ok events2 =>
      rw [hmm] at h
      cases h
      exact mergeCatLoop_map_id _ _ _ _ rfl hmm
  · intro ev o2s ev2 hmm
    exact (merge_secondary_origin_shape ev o2s ev2 hmm).2
  · intro ev o2s hnew
    rw [Event.merge_secondary_origin, mergeOriginLoop_all_new _ _ _ hnew]

/-- Witness for C3: merging the secondary catalogue (events B and A) into the
primary (event A only) keeps the primary event-id list [A]; the unmatched
event B is not added and the fresh origin O2 is appended to event A. -/
theorem spec_C3_witness :
    catP.merge_second_catalogue catS = Except.ok catPS ∧
    catPS.events.map Event.id = catP.events.map Event.id := by
  have h : catP.merge_second_catalogue catS = Except.ok catPS := by rfl
  exact ⟨h, (spec_C3 catP catS catPS h).1⟩

/-- Claim C8: after `assign_magnitudes_to_origins` on an event with at least
one origin and one magnitude, every magnitude whose origin id equals an
origin id appears in that origin magnitude list; when origin ids are pairwise
distinct (and origin magnitude lists start empty, as in the reader) each such
magnitude lands in exactly one origin. -/
theorem spec_C8 (ev : Event) (hm : ev.magnitudes ≠ []) (ho : ev.origins ≠ []) :
    (∀ m ∈ ev.magnitudes, ∀ o ∈ ev.assign_magnitudes_to_origins.origins,
      o.id = m.origin_id → m ∈ o.magnitudes) ∧
    ((∀ o ∈ ev.origins, o.magnitudes = []) →
      (ev.origins.map Origin.id).Nodup →
      ∀ m ∈ ev.magnitudes, m.origin_id ∈ ev.origins.map Origin.id →
        ev.assign_magnitudes_to_origins.origins.countP
          (fun o => decide (m ∈ o.magnitudes)) = 1) := by
  have hassign : ev.assign_magnitudes_to_origins.origins =
      ev.origins.map (fun o =>
        { o with magnitudes := o.magnitudes ++
            ev.magnitudes.filter (fun m => decide (o.id = m.origin_id)) }) := by
    rw [Event.assign_magnitudes_to_origins,
      if_neg (by simp [List.length_eq_zero, hm]),
      if_neg (by simp [List.length_eq_zero, ho])]
  constructor
  · intro m hmem o hoin hid
    rw [hassign] at hoin
    obtain ⟨o0, ho0, rfl⟩ := List.mem_map.mp hoin
    refine List.mem_append_right _ ?_
    rw [List.mem_filter]
    exact ⟨hmem, by simpa using hid⟩
  · intro hinit hnd m hmem hx
    rw [hassign, List.countP_map]
    rw [List.countP_congr (q := fun o => decide (o.id = m.origin_id)) ?_]
    · exact countP_origin_id_one ev.origins m.origin_id hnd hx
    · intro o hoin
      simp only [Function.comp_apply, decide_eq_true_eq]
      rw [hinit o hoin]
      simp [List.mem_filter, hmem]

/-- Witness for C8: in the two-origin event, the magnitude `mgA` (origin id
O1) is assigned to exactly one origin. -/
theorem spec_C8_witness :
    evC8.assign_magnitudes_to_origins.origins.countP
      (fun o => decide (mgA ∈ o.magnitudes)) = 1 := by
  exact (spec_C8 evC8 (by decide) (by decide)).2 (by decide) (by decide)
    mgA (by decide) (by decide)

theorem setLast_append (f : Origin → Origin) (os : List Origin) (o : Origin) :
    setLast f (os ++ [o]) = os ++ [f o] := by
  induction os with
  | nil => rfl
  | cons a t ih =>
    cases t with
    | nil => rfl
    | cons b t2 =>
      simp only [List.cons_append] at ih ⊢
      rw [show setLast f (a :: b :: (t2 ++ [o])) = a :: setLast f (b :: (t2 ++ [o]))
        from rfl, ih]

/-- Claim C6: on a non-boilerplate line containing the prime marker, with a
current event bound: if at least one origin was accumulated the most recently
appended origin (and only it) gets is_prime set, and nothing else in the
state — in particular the section flags — changes; with zero accumulated
origins the line has no effect.  The centroid marker behaves identically for
is_centroid (the source checks the prime marker first, hence the extra
hypothesis). -/
theorem spec_C6 (cfg : ISFReader) (st : ReaderState) (row : String)
    (acc : EventAcc) (hcur : st.current = some acc)
    (hb1 : strContains row "DATA_TYPE EVENT IMS1.0" = false)
    (hb2 : strContains row "ISC Bulletin" = false)
    (hb3 : strContains row "STOP" = false) :
    (strContains row "(#PRIME)" = true →
      (acc.origins = [] → processRow cfg st row = Except.ok st) ∧
      (∀ (os : List Origin) (o : Origin), acc.origins = os ++ [o] →
        processRow cfg st row =
          Except.ok (withOrigins st acc (os ++ [markPrime o])))) ∧
    (strContains row "(#PRIME)" = false → strContains row "(#CENTROID)" = true →
      (acc.origins = [] → processRow cfg st row = Except.ok st) ∧
      (∀ (os : List Origin) (o : Origin), acc.origins = os ++ [o] →
        processRow cfg st row =
          Except.ok (withOrigins st acc (os ++ [markCentroid o])))) := by
  constructor
  · intro hP
    have hne : row ≠ "" := by
      intro h0; rw [h0] at hP; exact absurd hP (by decide)
    constructor
    · intro hnil
      rw [processRow, if_neg hne, if_neg (by simp [hb1]), if_neg (by simp [hb2]),
        if_neg (by simp [hb3]), if_pos hP]
      simp only [hcur, hnil, List.length_nil, gt_iff_lt, lt_self_iff_false, if_false]
    · intro os o hor
      rw [processRow, if_neg hne, if_neg (by simp [hb1]), if_neg (by simp [hb2]),
        if_neg (by simp [hb3]), if_pos hP]
      simp only [hcur, hor, setLast_append]
      rw [if_pos (by simp)]
      rfl
  · intro hP hC
    have hne : row ≠ "" := by
      intro h0; rw [h0] at hC; exact absurd hC (by decide)
    constructor
    · intro hnil
      rw [processRow, if_neg hne, if_neg (by simp [hb1]), if_neg (by simp [hb2]),
        if_neg (by simp [hb3]), if_neg (by simp [hP]), if_pos hC]
      simp only [hcur, hnil, List.length_nil, gt_iff_lt, lt_self_iff_false, if_false]
    · intro os o hor
      rw [processRow, if_neg hne, if_neg (by simp [hb1]), if_neg (by simp [hb2]),
        if_neg (by simp [hb3]), if_neg (by simp [hP]), if_pos hC]
      simp only [hcur, hor, setLast_append]
      rw [if_pos (by simp)]
      rfl

/-- Witness for C6: a prime-marker line on a state with one accumulated
origin marks exactly that origin prime, and a centroid-marker line marks it
centroid. -/
theorem spec_C6_witness :
    processRow cfg0 stC6 "(#PRIME)" =
      Except.ok (withOrigins stC6
        { event := evP, origins := [sampleOrigin "O1" "ISC"], magnitudes := [] }
        ([] ++ [markPrime (sampleOrigin "O1" "ISC")])) ∧
    processRow cfg0 stC6 "(#CENTROID)" =
      Except.ok (withOrigins stC6
        { event := evP, origins := [sampleOrigin "O1" "ISC"], magnitudes := [] }
        ([] ++ [markCentroid (sampleOrigin "O1" "ISC")])) := by
  constructor
  · exact ((spec_C6 cfg0 stC6 "(#PRIME)"
      { event := evP, origins := [sampleOrigin "O1" "ISC"], magnitudes := [] }
      rfl (by decide) (by decide) (by decide)).1 (by decide)).2
      [] (sampleOrigin "O1" "ISC") rfl
  · exact ((spec_C6 cfg0 stC6 "(#CENTROID)"
      { event := evP, origins := [sampleOrigin "O1" "ISC"], magnitudes := [] }
      rfl (by decide) (by decide) (by decide)).2 (by decide) (by decide)).2
      [] (sampleOrigin "O1" "ISC") rfl

/-- Counterexample for C7 as stated: the line "Event 600 (x)" — whose entire
content is not a parenthesized comment, and which the claim says should fall
through to the event-header check — is nevertheless consumed as a comment:
the regex search fires on the embedded bracket group, the buffer gains "x",
and no new event is started (the counter and current event are unchanged). -/
theorem spec_C7_counterexample :
    entireParenComment "Event 600 (x)" = false ∧
    processRow cfg0 stC7 "Event 600 (x)" =
      Except.ok ({ stC7 with comment_str := "x\n" }) := by
  exact ⟨by decide, by rfl⟩

/-- Claim C7 (amended): a non-blank, non-boilerplate, non-marker line is
consumed as a comment exactly when it contains an opening bracket followed
later by a closing bracket anywhere in the line (the first such group is
captured into the buffer, the line is otherwise ignored); only a line with no
such bracket pair continues to the event-header and later checks. -/
theorem spec_C7 (cfg : ISFReader) (st : ReaderState) (row : String)
    (hb1 : strContains row "DATA_TYPE EVENT IMS1.0" = false)
    (hb2 : strContains row "ISC Bulletin" = false)
    (hb3 : strContains row "STOP" = false)
    (hP : strContains row "(#PRIME)" = false)
    (hC : strContains row "(#CENTROID)" = false) :
    (∀ c : String, extractComment row = some c →
      processRow cfg st row =
        Except.ok ({ st with comment_str := st.comment_str ++ c ++ "\n" })) ∧
    (extractComment row = none →
      strContains (pySlice row 0 5) "Event" = true → st.counter = 0 →
      ∀ e : Event, get_event_header_row row = Except.ok e →
      processRow cfg st row =
        Except.ok { st with
          current := some (freshAcc e)
          comment_str := ""
          counter := st.counter + 1 }) := by
  constructor
  · intro c hcomment
    have hne : row ≠ "" := by
      intro h0
      rw [h0, show extractComment "" = none from rfl] at hcomment
      cases hcomment
    rw [processRow, if_neg hne, if_neg (by simp [hb1]), if_neg (by simp [hb2]),
      if_neg (by simp [hb3]), if_neg (by simp [hP]), if_neg (by simp [hC])]
    simp only [hcomment]
  · intro hnone hev hcount e hhdr
    have hne : row ≠ "" := by
      intro h0; rw [h0] at hev; exact absurd hev (by decide)
    rw [processRow, if_neg hne, if_neg (by simp [hb1]), if_neg (by simp [hb2]),
      if_neg (by simp [hb3]), if_neg (by simp [hP]), if_neg (by simp [hC])]
    simp only [hnone]
    rw [if_pos hev]
    simp only [hcount, gt_iff_lt, lt_self_iff_false, if_false, hhdr]
    rfl

/-- Witness for C7 (amended): a pure comment line "(a)" is consumed into the
buffer, and the bracket-free header line "Event 1 test" continues to the
event-header check and starts a new event shell. -/
theorem spec_C7_witness :
    processRow cfg0 stC7 "(a)" =
      Except.ok ({ stC7 with comment_str := stC7.comment_str ++ "a" ++ "\n" }) ∧
    processRow cfg0 initReaderState "Event 1 test" =
      Except.ok { initReaderState with
        current := some (freshAcc evHdr)
        comment_str := ""
        counter := initReaderState.counter + 1 } := by
  constructor
  · exact (spec_C7 cfg0 stC7 "(a)" (by decide) (by decide) (by decide)
      (by decide) (by decide)).1 "a" (by rfl)
  · exact (spec_C7 cfg0 initReaderState "Event 1 test" (by decide) (by decide)
      (by decide) (by decide) (by decide)).2 (by rfl) (by decide) rfl evHdr (by rfl)

theorem processRow_ok_current_none (cfg : ISFReader) (st : ReaderState)
    (row : String) (st2 : ReaderState) (hst : st.current = none)
    (hev : strContains (pySlice row 0 5) "Event" = false)
    (heq : processRow cfg st row = Except.ok st2) : st2.current = none := by
  simp only [processRow, hst, hev, Bool.false_eq_true, if_false] at heq
  repeat' split at heq
  all_goals
    first
      | (injection heq with h2; subst h2; first | exact hst | rfl)
      | exact absurd heq (by simp)

theorem processRow_current_none (cfg : ISFReader) (st : ReaderState) (row : String)
    (hst : st.current = none)
    (hev : strContains (pySlice row 0 5) "Event" = false) :
    (∃ e, processRow cfg st row = Except.error e) ∨
    (∃ st2, processRow cfg st row = Except.ok st2 ∧ st2.current = none) := by
  cases hx : processRow cfg st row with
  | error e => exact Or.inl ⟨e, rfl⟩
  | ok st2 =>
    exact Or.inr ⟨st2, rfl, processRow_ok_current_none cfg st row st2 hst hev hx⟩

theorem runRows_current_none (cfg : ISFReader) :
    ∀ (lines : List String) (st : ReaderState), st.current = none →
    (∀ row ∈ lines, strContains (pySlice row 0 5) "Event" = false) →
    (∃ e, runRows cfg st lines = Except.error e) ∨
    (∃ st2, runRows cfg st lines = Except.ok st2 ∧ st2.current = none) := by
  intro lines
  induction lines with
  | nil => intro st hst _; exact Or.inr ⟨st, rfl, hst⟩
  | cons row rest ih =>
    intro st hst hall
    rcases processRow_current_none cfg st row hst (hall row (by simp)) with
      ⟨e, he⟩ | ⟨st2, hok, hst2⟩
    · rw [runRows, he]
      exact Or.inl ⟨e, rfl⟩
    · rw [runRows, hok]
      exact ih st2 hst2 (fun r hr => hall r (by simp [hr]))

/-- Claim C10: on input with no Event header line the local variables for the
current event are never bound, so `read_file` never returns a catalogue — it
fails (on marker or data rows, or at latest at the end-of-input finalization,
which on the empty file raises the NameError on the never-bound event
variable). -/
theorem spec_C10 (cfg : ISFReader) (identifier name : String)
    (lines : List String)
    (h : ∀ row ∈ lines, strContains (pySlice row 0 5) "Event" = false) :
    (∃ e, cfg.read_file identifier name lines = Except.error e) ∧
    cfg.read_file identifier name [] =
      Except.error "NameError: name event is not defined" := by
  constructor
  · rcases runRows_current_none cfg lines initReaderState rfl h with
      ⟨e, he⟩ | ⟨st2, hok, hst2⟩
    · exact ⟨e, by rw [ISFReader.read_file, he]⟩
    · refine ⟨"NameError: name event is not defined", ?_⟩
      rw [ISFReader.read_file, hok]
      simp only [hst2]
  · rfl

/-- Witness for C10: with the single header-free line "foo" the reader call
fails rather than returning an empty catalogue, and on the empty file it
fails with the NameError from the finalization step. -/
theorem spec_C10_witness :
    (∃ e, cfg0.read_file "X" "Y" ["foo"] = Except.error e) ∧
    cfg0.read_file "X" "Y" [] =
      Except.error "NameError: name event is not defined" := by
  exact spec_C10 cfg0 "X" "Y" ["foo"] (by decide)

/-- Claim C4: the acceptance checks run magnitude window, then bounding box,
then rejection keywords, first failure short-circuiting — observable in that
only a keyword failure (reached only after both earlier checks pass) appends
the event to the rejected side channel, while magnitude and location failures
leave the channel untouched; and when any rejection occurred, read_file wraps
the rejected events into a catalogue named with the "-R" id suffix and the
" - Rejected" name suffix. -/
theorem spec_C4 (cfg : ISFReader) (rej : List Event) (ev : Event)
    (identifier name : String) (lines : List String)
    (cat : ISFCatalogue) (rcatOpt : Option ISFCatalogue)
    (h : cfg.read_file identifier name lines = Except.ok (cat, rcatOpt)) :
    ((cfg._acceptance rej ev).1 =
        (cfg.validMagnitude ev && (cfg.validLocation ev && !cfg.keywordHit ev)) ∧
      (cfg._acceptance rej ev).2 = rej ++
        (if cfg.validMagnitude ev && (cfg.validLocation ev && cfg.keywordHit ev)
         then [ev] else [])) ∧
    (∀ rcat : ISFCatalogue, rcatOpt = some rcat →
      rcat.id = identifier ++ "-R" ∧ rcat.name = name ++ " - Rejected" ∧
      rcat.events ≠ []) := by
  constructor
  · cases hm : cfg.validMagnitude ev <;> cases hl : cfg.validLocation ev <;>
      cases hk : cfg.keywordHit ev <;>
      simp [ISFReader._acceptance, hm, hl, hk]
  · intro rcat hrc
    cases hrun : runRows cfg initReaderState lines with
    | error e => rw [ISFReader.read_file, hrun] at h; cases h
    | ok st =>
      cases hcur : st.current with
      | none =>
        rw [ISFReader.read_file, hrun] at h
        simp only [hcur] at h
        exact absurd h (by simp)
      | some acc =>
        simp only [ISFReader.read_file, hrun, hcur] at h
        by_cases hz : (cfg._build_event st.events st.rejected acc.event
            acc.origins acc.magnitudes st.comment_str).2.length ≠ 0
        · rw [if_pos hz] at h
          obtain ⟨h1, h2⟩ := Prod.mk.inj (Except.ok.inj h)
          rw [← h2] at hrc
          have hbr := Option.some.inj hrc
          refine ⟨by rw [← hbr], by rw [← hbr], ?_⟩
          rw [← hbr]
          intro h0
          exact hz (by rw [show (cfg._build_event st.events st.rejected acc.event
            acc.origins acc.magnitudes st.comment_str).2 = [] from h0]; rfl)
        · rw [if_neg hz] at h
          obtain ⟨h1, h2⟩ := Prod.mk.inj (Except.ok.inj h)
          rw [← h2] at hrc
          cases hrc

/-- Witness for C4: a concrete successful read (one header-only event, no
rejections) discharges the read hypothesis; the acceptance characterization
is instantiated at the default configuration and a concrete event. -/
theorem spec_C4_witness :
    (cfg0._acceptance [] evM56).1 =
      (cfg0.validMagnitude evM56 &&
        (cfg0.validLocation evM56 && !cfg0.keywordHit evM56)) ∧
    (cfg0._acceptance [] evM56).2 = [] ++
      (if cfg0.validMagnitude evM56 &&
          (cfg0.validLocation evM56 && cfg0.keywordHit evM56)
       then [evM56] else []) := by
  exact (spec_C4 cfg0 [] evM56 "X" "Y" ["Event 1 test"]
    { id := "X", name := "Y", events := [] } none (by rfl)).1
